import Mathlib

/-!
Shallow embedding of the pet-store catalog service (src/petstore) and the
pet-order purchase service (src/pet-order), together with theorems checking
the natural-language specification against the code.

Python dicts (which preserve insertion order and have unique keys) are
modelled as association lists `List (String × α)`; assignment replaces the
value at an existing key in place and appends a fresh key at the end, and
`pop` removes the key, exactly as in CPython.
-/

namespace Petstore

/-- Python `str.lower()` (ASCII case mapping, which is all the repository
uses), implemented on the character list so that it evaluates by kernel
reduction. -/
def pyLower (s : String) : String :=
  String.mk (s.data.map Char.toLower)

/-- Python `str.strip()`: drop whitespace from both ends. -/
def pyStrip (s : String) : String :=
  String.mk (((s.data.dropWhile Char.isWhitespace).reverse.dropWhile Char.isWhitespace).reverse)

/-- Split a character list on a separator character, keeping empty groups,
as Python `str.split(sep)` does. -/
def splitChar (sep : Char) : List Char → List (List Char)
  | [] => [[]]
  | c :: rest =>
    match splitChar sep rest with
    | [] => if c = sep then [[], []] else [[c]]
    | g :: gs => if c = sep then [] :: g :: gs else (c :: g) :: gs

/-- Association-list lookup, mirroring `dict.get`. -/
def alGet {α : Type} : List (String × α) → String → Option α
  | [], _ => none
  | p :: rest, k => if p.1 = k then some p.2 else alGet rest k

/-- Association-list assignment, mirroring `dict[k] = v`. -/
def alSet {α : Type} : List (String × α) → String → α → List (String × α)
  | [], k, v => [(k, v)]
  | p :: rest, k, v => if p.1 = k then (k, v) :: rest else p :: alSet rest k v

/-- Association-list removal, mirroring `dict.pop(k, None)`. -/
def alErase {α : Type} : List (String × α) → String → List (String × α)
  | [], _ => []
  | p :: rest, k => if p.1 = k then alErase rest k else p :: alErase rest k

/-- Internal pet record (models.py: dict with name, birthdate, picture, picture_url). -/
structure Pet where
  name : String
  birthdate : String
  picture : String
  picture_url : Option String
deriving DecidableEq

/-- Pet-type JSON object stored in `pet_types` (app.py `create_pet_type`). -/
structure PetType where
  id : String
  type : String
  family : String
  genus : String
  attributes : List String
  lifespan : Option Int
  pets : List String
deriving DecidableEq

/-- The in-memory database of models.py: the three module-level dicts plus
the incremental id counter. -/
structure CatalogState where
  pet_types : List (String × PetType)
  pets_by_type : List (String × List (String × Pet))
  type_name_to_id : List (String × String)
  next_id : Nat
deriving DecidableEq

/-- models.py `pet_type_exists_by_name`. -/
def pet_type_exists_by_name (s : CatalogState) (typeName : String) : Bool :=
  (alGet s.type_name_to_id (pyLower typeName)).isSome

/-- models.py `register_pet_type`. -/
def register_pet_type (s : CatalogState) (pt : PetType) : CatalogState :=
  { s with
    pet_types := alSet s.pet_types pt.id pt
    pets_by_type := alSet s.pets_by_type pt.id []
    type_name_to_id := alSet s.type_name_to_id (pyLower pt.type) pt.id }

/-- models.py `remove_pet_type`. -/
def remove_pet_type (s : CatalogState) (tid : String) : CatalogState :=
  match alGet s.pet_types tid with
  | none => s
  | some pt =>
    { s with
      pet_types := alErase s.pet_types tid
      pets_by_type := alErase s.pets_by_type tid
      type_name_to_id := alErase s.type_name_to_id (pyLower pt.type) }

/-- models.py `add_pet`.  Call sites in app.py only invoke it for an existing
pet-type id; a missing id raises `KeyError` in the source and is left as the
identity on `pet_types` here. -/
def add_pet (s : CatalogState) (tid : String) (pet : Pet) : CatalogState :=
  let m := (alGet s.pets_by_type tid).getD []
  let m2 := alSet m (pyLower pet.name) pet
  let pts :=
    match alGet s.pet_types tid with
    | none => s.pet_types
    | some pt =>
      alSet s.pet_types tid
        (if pet.name ∈ pt.pets then pt else { pt with pets := pt.pets ++ [pet.name] })
  { s with pets_by_type := alSet s.pets_by_type tid m2, pet_types := pts }

/-- models.py `delete_pet`: returns the popped pet (if any) and the new state.
As in `add_pet`, the `pet_types[pet_type_id]` access on the found path is
only reached by app.py when the type exists. -/
def delete_pet (s : CatalogState) (tid : String) (petName : String) :
    Option Pet × CatalogState :=
  match alGet s.pets_by_type tid with
  | none => (none, s)
  | some m =>
    match alGet m (pyLower petName) with
    | none => (none, s)
    | some pet =>
      let pts :=
        match alGet s.pet_types tid with
        | none => s.pet_types
        | some pt =>
          alSet s.pet_types tid
            { pt with pets := pt.pets.filter (fun n => pyLower n ≠ pyLower petName) }
      (some pet,
        { s with
          pets_by_type := alSet s.pets_by_type tid (alErase m (pyLower petName))
          pet_types := pts })

/-- External pet JSON (models.py `pet_to_json`). -/
structure PetJson where
  name : String
  birthdate : String
  picture : String
deriving DecidableEq

def pet_to_json (p : Pet) : PetJson :=
  { name := p.name, birthdate := p.birthdate, picture := p.picture }

/-- The pets map held for a type (models.py `get_pets_for_type`). -/
def petsOf (s : CatalogState) (tid : String) : List (String × Pet) :=
  (alGet s.pets_by_type tid).getD []

/-- The `pets` name array of the stored pet-type object, empty when the id is
unknown. -/
def namesOf (s : CatalogState) (tid : String) : List String :=
  ((alGet s.pet_types tid).map PetType.pets).getD []

/-- Gregorian leap-year rule used by Python `datetime.date`. -/
def isLeap (y : Nat) : Bool :=
  y % 4 == 0 && (y % 100 != 0 || y % 400 == 0)

def daysInMonth (y m : Nat) : Nat :=
  if m = 2 then (if isLeap y then 29 else 28)
  else if m = 4 ∨ m = 6 ∨ m = 9 ∨ m = 11 then 30
  else 31

structure CivilDate where
  day : Nat
  month : Nat
  year : Nat
deriving DecidableEq

/-- Digits-only numeral on a character group, rejecting empty and non-digit
groups. -/
def digitsToNat (cs : List Char) : Option Nat :=
  if cs ≠ [] ∧ cs.all Char.isDigit
  then some (cs.foldl (fun acc c => 10 * acc + (c.toNat - 48)) 0)
  else none

/-- models.py `parse_date`: `strptime(date_str, "%d-%m-%Y").date()`, i.e. a
DD-MM-YYYY string (one or two digits for day and month, up to four for the
year) that denotes a real calendar date; invalid input yields `none` where
the source raises `ValueError`. -/
def parse_date (str : String) : Option CivilDate :=
  match splitChar '-' str.data with
  | [ds, ms, ys] =>
    match digitsToNat ds, digitsToNat ms, digitsToNat ys with
    | some d, some m, some y =>
      if ds.length ≤ 2 ∧ ms.length ≤ 2 ∧ ys.length ≤ 4 ∧
          1 ≤ y ∧ y ≤ 9999 ∧ 1 ≤ m ∧ m ≤ 12 ∧ 1 ≤ d ∧ d ≤ daysInMonth y m
      then some { day := d, month := m, year := y }
      else none
    | _, _, _ => none
  | _ => none

/-- Proleptic-Gregorian ordinal of a date, as computed by
`datetime.date.toordinal`; date subtraction in Python is the difference of
these ordinals. -/
def toOrdinal (c : CivilDate) : Int :=
  let y := c.year
  let priorDays := 365 * (y - 1) + (y - 1) / 4 - (y - 1) / 100 + (y - 1) / 400
  let monthDays := (List.range (c.month - 1)).foldl (fun acc i => acc + daysInMonth y (i + 1)) 0
  (priorDays : Int) + (monthDays : Int) + (c.day : Int)

/-- models.py `compare_dates`: `(d1 - d2).days`, or `none` when either input
fails to parse (the source raises). -/
def compare_dates (a b : String) : Option Int :=
  match parse_date a, parse_date b with
  | some d1, some d2 => some (toOrdinal d1 - toOrdinal d2)
  | _, _ => none

end Petstore


namespace Petstore

/-- Taxonomy data returned by the resolver (ninja_client.py). -/
structure TypeInfo where
  family : String
  genus : String
  attributes : List String
  lifespan : Option Int
deriving DecidableEq

/-- ninja_client.py `ASSN4_PETTYPE_MAP`: the deterministic mapping used for
the Assignment 4 species, keyed by the stripped lower-cased name. -/
def ASSN4_PETTYPE_MAP : List (String × TypeInfo) :=
  [ ("golden retriever",
      { family := "Canidae", genus := "Canis", attributes := [], lifespan := some 12 }),
    ("australian shepherd",
      { family := "Canidae", genus := "Canis",
        attributes := ["Loyal", "outgoing", "and", "friendly"], lifespan := some 15 }),
    ("abyssinian",
      { family := "Felidae", genus := "Felis",
        attributes := ["Intelligent", "and", "curious"], lifespan := some 13 }),
    ("bulldog",
      { family := "Canidae", genus := "Canis",
        attributes := ["Gentle", "calm", "and", "affectionate"], lifespan := none }) ]

/-- Outcome of resolving a species name: found data, a not-recognized
failure, an upstream error with its HTTP code, or any other exception. -/
inductive NinjaOutcome where
  | found (info : TypeInfo)
  | notFound
  | apiError (code : Nat)
  | otherFailure
deriving DecidableEq

/-- ninja_client.py `fetch_pet_type_data`: the deterministic map is
consulted first on the stripped lower-cased name; only on a miss does the
live API call (here an environment parameter `live`) decide the outcome. -/
def fetch_pet_type_data (typeName : String) (live : NinjaOutcome) : NinjaOutcome :=
  match alGet ASSN4_PETTYPE_MAP (pyLower (pyStrip typeName)) with
  | some info => NinjaOutcome.found info
  | none => live

/-- Body of a catalog-service HTTP response, as far as the claims need it. -/
inductive RespBody where
  | petType (pt : PetType)
  | error (msg : String)
  | empty
deriving DecidableEq

/-- A catalog-service HTTP response: status code plus body. -/
structure CatalogResp where
  status : Nat
  body : RespBody
deriving DecidableEq

/-- app.py `create_pet_type` after the content-type and body-shape checks
(`typeName` is the request's "type" string): duplicate-name check, taxonomy
resolution, id assignment, registration. -/
def create_pet_type (s : CatalogState) (typeName : String) (live : NinjaOutcome) :
    CatalogResp × CatalogState :=
  if pet_type_exists_by_name s typeName then
    ({ status := 400, body := RespBody.error "Malformed data" }, s)
  else
    match fetch_pet_type_data typeName live with
    | NinjaOutcome.notFound =>
      ({ status := 400, body := RespBody.error "Malformed data" }, s)
    | NinjaOutcome.apiError code =>
      ({ status := 500, body := RespBody.error ("API response code " ++ toString code) }, s)
    | NinjaOutcome.otherFailure =>
      ({ status := 500, body := RespBody.error "API call failed" }, s)
    | NinjaOutcome.found info =>
      let tid := toString s.next_id
      let pt : PetType :=
        { id := tid, type := typeName, family := info.family, genus := info.genus,
          attributes := info.attributes, lifespan := info.lifespan, pets := [] }
      ({ status := 201, body := RespBody.petType pt },
        register_pet_type { s with next_id := s.next_id + 1 } pt)

/-- app.py `delete_pet_type`: 404 for an unknown id, 400 while pets remain,
otherwise remove and answer 204. -/
def delete_pet_type (s : CatalogState) (tid : String) : CatalogResp × CatalogState :=
  match alGet s.pet_types tid with
  | none => ({ status := 404, body := RespBody.error "Not found" }, s)
  | some pt =>
    if pt.pets ≠ [] then ({ status := 400, body := RespBody.error "Malformed data" }, s)
    else ({ status := 204, body := RespBody.empty }, remove_pet_type s tid)

/-- The empty in-memory database at service start-up. -/
def baseState : CatalogState :=
  { pet_types := [], pets_by_type := [], type_name_to_id := [], next_id := 1 }

/-- A sample registered pet-type used for concrete evaluations. -/
def dogType : PetType :=
  { id := "1", type := "Dog", family := "Canidae", genus := "Canis",
    attributes := ["loyal"], lifespan := some 12, pets := [] }

def rexPet : Pet :=
  { name := "Rex", birthdate := "NA", picture := "NA", picture_url := none }

def dogState : CatalogState := register_pet_type baseState dogType

def dogRexState : CatalogState := add_pet dogState "1" rexPet

end Petstore


namespace Petstore

/-- Keys of a pets map: the lower-cased pet names under which pets are
stored. -/
def petKeys (m : List (String × Pet)) : List String :=
  m.map Prod.fst

/-- Case-insensitive set correspondence between a pet-type's `pets` name
array and the pets actually stored for it: every listed name names a stored
pet, and every stored pet is named by at least one entry. -/
def names_match_pets (m : List (String × Pet)) (names : List String) : Prop :=
  (∀ n ∈ names, pyLower n ∈ petKeys m) ∧ (∀ k ∈ petKeys m, ∃ n ∈ names, pyLower n = k)

/-- Exact correspondence claimed by the spec: the list holds, without
duplicates, exactly the names of the stored pets up to case, i.e. the
lower-cased name list is a permutation of the stored keys. -/
def exact_names_match (m : List (String × Pet)) (names : List String) : Prop :=
  List.Perm (names.map pyLower) (petKeys m)

instance names_match_pets_dec (m : List (String × Pet)) (names : List String) :
    Decidable (names_match_pets m names) :=
  inferInstanceAs (Decidable
    ((∀ n ∈ names, pyLower n ∈ petKeys m) ∧ (∀ k ∈ petKeys m, ∃ n ∈ names, pyLower n = k)))

instance exact_names_match_dec (m : List (String × Pet)) (names : List String) :
    Decidable (exact_names_match m names) :=
  inferInstanceAs (Decidable (List.Perm (names.map pyLower) (petKeys m)))

/-- Error raised by app.py `_build_or_update_pet`: a validation failure
("Malformed") or a picture-download failure carrying the upstream HTTP
code (`NinjaApiError`). -/
inductive BuildErr where
  | malformed
  | apiError (code : Nat)
deriving DecidableEq

/-- JSON payload of a pet create/update request.  `birthdate = none` and
`picture_url = none` mean the key is absent; `picture_url = some none`
models an explicit JSON null. -/
structure PetData where
  name : String
  birthdate : Option String
  picture_url : Option (Option String)
deriving DecidableEq

/-- Result of building a pet: the internal pet dict plus the effect log of
URL downloads performed and picture files removed. -/
structure BuildOut where
  pet : Pet
  downloads : List String
  removals : List String
deriving DecidableEq

/-- Python truthiness of the optional picture URL (`if picture_url and ...`). -/
def urlTruthy : Option String → Bool
  | none => false
  | some u => u ≠ ""

/-- app.py `_build_or_update_pet` after the name check, with the picture
download modelled by the oracle `download : url → file name or HTTP error
code`.  The four tracked locals are (birthdate, picture, picture_url,
old_picture_file) exactly as in the source. -/
def build_or_update_pet (download : String → Except Nat String)
    (data : PetData) (existing : Option Pet) : Except BuildErr BuildOut :=
  let bd0 := data.birthdate.getD "NA"
  if bd0 ≠ "NA" ∧ (parse_date bd0).isNone then Except.error BuildErr.malformed
  else
    let url0 : Option String := data.picture_url.getD none
    let st : String × String × Option String × Option String :=
      match existing with
      | none => (bd0, "NA", url0, none)
      | some ex =>
        let bd := if data.birthdate.isNone then ex.birthdate else bd0
        if data.picture_url.isNone then (bd, ex.picture, ex.picture_url, none)
        else if url0 = ex.picture_url then (bd, ex.picture, url0, none)
        else (bd, "NA", url0, some ex.picture)
    match st with
    | (bd, pic0, url, oldFile) =>
      let need : Bool :=
        urlTruthy url &&
          (match existing with
            | none => true
            | some ex => decide (pic0 ≠ ex.picture))
      let dl : Except Nat (String × List String) :=
        if need then
          match url with
          | some u => (download u).map (fun f => (f, [u]))
          | none => Except.ok (pic0, [])
        else Except.ok (pic0, [])
      match dl with
      | Except.error code => Except.error (BuildErr.apiError code)
      | Except.ok (pic, dls) =>
        let rems : List String :=
          match oldFile with
          | some f => if f ≠ "" ∧ f ≠ "NA" then [f] else []
          | none => []
        Except.ok
          { pet := { name := data.name, birthdate := bd, picture := pic, picture_url := url },
            downloads := dls, removals := rems }

end Petstore


namespace PetOrder

open Petstore

/-- A recorded purchase (pet-order/app.py `transaction` dict). -/
structure Transaction where
  purchaser : String
  pet_type : String
  store : Nat
  pet_name : String
  purchase_id : String
deriving DecidableEq

/-- A purchase request body whose `purchaser` and `pet-type` fields already
passed the string checks; `store` and `pet_name` are the optional fields. -/
structure PurchaseReq where
  purchaser : String
  pet_type : String
  store : Option Int
  pet_name : Option String
deriving DecidableEq

/-- The selection tuple `(store_id, store_url, pet_type_id, pet_name)` bound
to `chosen` in the source (the URL is determined by the store id). -/
structure Chosen where
  store_id : Nat
  type_id : String
  name : String
deriving DecidableEq

/-- Environment of one purchase request: the catalog states behind the two
petstore instances, the randomness used by `random.choice`, the generated
uuid, and the outcome of the remote DELETE call. -/
structure OrderEnv where
  store1 : CatalogState
  store2 : CatalogState
  seed : Nat
  fresh_id : String
  delete_status : Nat → String → String → Nat

def catalogOf (env : OrderEnv) (sid : Nat) : CatalogState :=
  if sid = 1 then env.store1 else env.store2

/-- pet-order/app.py `get_pet_type_id`: scan the store's pet-type listing
for a case-insensitive type-name match and return its id. -/
def get_pet_type_id (s : CatalogState) (petType : String) : Option String :=
  ((s.pet_types.map Prod.snd).find? (fun pt => pyLower pt.type == pyLower petType)).map PetType.id

/-- Python truthiness filter on the optional id (`if not pet_type_id`). -/
def strOptTruthy : Option String → Option String
  | none => none
  | some v => if v = "" then none else some v

/-- pet-order/app.py `get_pets`: the store's `GET /pet-types/{id}/pets`
listing, or `[]` when that request does not answer 200. -/
def get_pets (s : CatalogState) (tid : String) : List PetJson :=
  if (alGet s.pet_types tid).isSome then (petsOf s tid).map (fun kv => pet_to_json kv.2)
  else []

/-- One iteration of the store loop in `create_purchase`: resolve the type,
list its pets, then select by name (case-insensitively) or at random. -/
def try_store (env : OrderEnv) (req : PurchaseReq) (sid : Nat) : Option Chosen :=
  let s := catalogOf env sid
  match strOptTruthy (get_pet_type_id s req.pet_type) with
  | none => none
  | some tid =>
    let pets := get_pets s tid
    if pets.isEmpty then none
    else
      match req.pet_name with
      | some n =>
        if n = "" then (pets[env.seed % pets.length]?).map (fun p => Chosen.mk sid tid p.name)
        else (pets.find? (fun p => pyLower p.name == pyLower n)).map (fun p => Chosen.mk sid tid p.name)
      | none => (pets[env.seed % pets.length]?).map (fun p => Chosen.mk sid tid p.name)

/-- The `for store_id, store_url in stores_to_check` loop: first store that
yields a selection wins. -/
def first_choice (env : OrderEnv) (req : PurchaseReq) : List Nat → Option Chosen
  | [] => none
  | sid :: rest =>
    match try_store env req sid with
    | some c => some c
    | none => first_choice env req rest

/-- pet-order/app.py `stores_to_check`: the single requested store, or both
in the fixed order 1 then 2. -/
def stores_to_check (req : PurchaseReq) : List Nat :=
  match req.store with
  | some 1 => [1]
  | some 2 => [2]
  | _ => [1, 2]

def chosen_of (env : OrderEnv) (req : PurchaseReq) : Option Chosen :=
  first_choice env req (stores_to_check req)

/-- The `store is not None and store not in [1, 2]` validation. -/
def store_valid : Option Int → Bool
  | none => true
  | some k => k == 1 || k == 2

inductive PurchaseResult where
  | failure (status : Nat) (msg : String)
  | success (t : Transaction)
deriving DecidableEq

def mk_transaction (req : PurchaseReq) (c : Chosen) (pid : String) : Transaction :=
  { purchaser := req.purchaser, pet_type := req.pet_type, store := c.store_id,
    pet_name := c.name, purchase_id := pid }

/-- pet-order/app.py `create_purchase` after the content-type and
purchaser/pet-type string checks, returning the response together with the
transactions ledger (Mongo `insert_one` appends). -/
def create_purchase (env : OrderEnv) (req : PurchaseReq) (ledger : List Transaction) :
    PurchaseResult × List Transaction :=
  if ¬ store_valid req.store then (PurchaseResult.failure 400 "Malformed data", ledger)
  else if req.store = none ∧ req.pet_name ≠ none then
    (PurchaseResult.failure 400 "Malformed data", ledger)
  else
    match chosen_of env req with
    | none => (PurchaseResult.failure 400 "No pet of this type is available", ledger)
    | some c =>
      if env.delete_status c.store_id c.type_id c.name = 204 then
        let t := mk_transaction req c env.fresh_id
        (PurchaseResult.success t, ledger ++ [t])
      else (PurchaseResult.failure 400 "No pet of this type is available", ledger)

/-- Status code of petstore app.py `delete_pet_route`, the endpoint hit by
the order service's remote DELETE. -/
def petstore_delete_status (s : CatalogState) (tid : String) (petName : String) : Nat :=
  if (alGet s.pet_types tid).isNone then 404
  else
    match (Petstore.delete_pet s tid petName).1 with
    | none => 404
    | some _ => 204

/-- An environment in which the two remote stores really behave like the
petstore service: the remote DELETE outcome is the one `delete_pet_route`
computes on the corresponding catalog state. -/
def mk_env (s1 s2 : CatalogState) (seed : Nat) (pid : String) : OrderEnv :=
  { store1 := s1, store2 := s2, seed := seed, fresh_id := pid,
    delete_status := fun sid tid n => petstore_delete_status (if sid = 1 then s1 else s2) tid n }

/-- Well-formedness of a catalog state as produced by the petstore service:
every pet is stored under its lower-cased name. -/
def store_wf (s : CatalogState) : Prop :=
  ∀ e ∈ s.pets_by_type, ∀ kv ∈ e.2, kv.1 = pyLower kv.2.name

instance store_wf_dec (s : CatalogState) : Decidable (store_wf s) :=
  inferInstanceAs (Decidable (∀ e ∈ s.pets_by_type, ∀ kv ∈ e.2, kv.1 = pyLower kv.2.name))

end PetOrder

-- ===== Theorems =====

/-- C10: for all valid day-month-year date strings A and B, the date
comparison function satisfies compare(A,B) > 0 iff compare(B,A) < 0, and
compare(A,A) = 0. -/
theorem Petstore.compare_dates_antisymm (A B : String) (dA dB : Petstore.CivilDate)
    (hA : Petstore.parse_date A = some dA) (hB : Petstore.parse_date B = some dB) :
    (∀ x y : Int, Petstore.compare_dates A B = some x →
      Petstore.compare_dates B A = some y → (0 < x ↔ y < 0))
    ∧ Petstore.compare_dates A A = some 0 := by
  constructor
  · intro x y hx hy
    rw [Petstore.compare_dates, hA, hB] at hx hy
    rw [Option.some_inj] at hx hy
    omega
  · rw [Petstore.compare_dates, hA]
    simp

/-- Witness for C10 at A = "03-02-2020", B = "01-02-2020", where the two
comparison values are 2 and -2. -/
theorem Petstore.compare_dates_antisymm_witness : (0 : Int) < 2 ↔ (-2 : Int) < 0 :=
  (Petstore.compare_dates_antisymm "03-02-2020" "01-02-2020"
    { day := 3, month := 2, year := 2020 } { day := 1, month := 2, year := 2020 }
    (by decide) (by decide)).1 2 (-2) (by decide) (by decide)

/-- C7: registering a pet-type whose name already exists case-insensitively
fails with a 400 client error and leaves the state unchanged, for every
possible outcome of the taxonomy lookup (the resolver is not consulted). -/
theorem Petstore.duplicate_type_name_rejected (s : Petstore.CatalogState)
    (typeName : String) (live : Petstore.NinjaOutcome)
    (h : Petstore.pet_type_exists_by_name s typeName = true) :
    Petstore.create_pet_type s typeName live =
      ({ status := 400, body := Petstore.RespBody.error "Malformed data" }, s) := by
  simp [Petstore.create_pet_type, h]

/-- Witness for C7: with "Dog" registered, a POST for "DOG" is rejected with
400 even though the deterministic resolver would have answered for it. -/
theorem Petstore.duplicate_type_name_rejected_witness :
    Petstore.create_pet_type Petstore.dogState "DOG"
        (Petstore.NinjaOutcome.found
          { family := "x", genus := "y", attributes := [], lifespan := none }) =
      ({ status := 400, body := Petstore.RespBody.error "Malformed data" },
        Petstore.dogState) :=
  Petstore.duplicate_type_name_rejected Petstore.dogState "DOG"
    (Petstore.NinjaOutcome.found
      { family := "x", genus := "y", attributes := [], lifespan := none })
    (by decide)

namespace Petstore

theorem alGet_alSet_self {α : Type} (l : List (String × α)) (k : String) (v : α) :
    alGet (alSet l k v) k = some v := by
  induction l with
  | nil => simp [alSet, alGet]
  | cons p rest ih =>
    by_cases h : p.1 = k
    · simp [alSet, h, alGet]
    · simp [alSet, h, alGet, ih]

theorem alGet_alErase_self {α : Type} (l : List (String × α)) (k : String) :
    alGet (alErase l k) k = none := by
  induction l with
  | nil => simp [alErase, alGet]
  | cons p rest ih =>
    by_cases h : p.1 = k
    · simp [alErase, h, ih]
    · simp [alErase, h, alGet, ih]

theorem mem_keys_alSet {α : Type} (l : List (String × α)) (k x : String) (v : α) :
    x ∈ (alSet l k v).map Prod.fst ↔ x = k ∨ x ∈ l.map Prod.fst := by
  induction l with
  | nil => simp [alSet]
  | cons p rest ih =>
    by_cases h : p.1 = k
    · subst h
      simp [alSet]
    · simp [alSet, h, ih]
      tauto

theorem mem_keys_alErase {α : Type} (l : List (String × α)) (k x : String) :
    x ∈ (alErase l k).map Prod.fst ↔ x ∈ l.map Prod.fst ∧ x ≠ k := by
  induction l with
  | nil => simp [alErase]
  | cons p rest ih =>
    by_cases h : p.1 = k
    · subst h
      simp [alErase, ih]
      tauto
    · simp [alErase, h, ih]
      aesop

theorem alGet_isSome_of_mem_keys {α : Type} (l : List (String × α)) (k : String)
    (h : k ∈ l.map Prod.fst) : (alGet l k).isSome := by
  induction l with
  | nil => simp at h
  | cons p rest ih =>
    by_cases hk : p.1 = k
    · simp [alGet, hk]
    · simp at h
      rcases h with h | h
      · exact absurd h.symm hk
      · simp [alGet, hk, ih (by simpa using h)]

theorem alGet_mem {α : Type} (l : List (String × α)) (k : String) (v : α)
    (h : alGet l k = some v) : (k, v) ∈ l := by
  induction l with
  | nil => simp [alGet] at h
  | cons p rest ih =>
    by_cases hk : p.1 = k
    · rw [alGet, if_pos hk, Option.some_inj] at h
      have : p = (k, v) := by
        rw [Prod.ext_iff]
        exact ⟨hk, h⟩
      rw [← this]
      exact List.mem_cons_self p rest
    · rw [alGet, if_neg hk] at h
      exact List.mem_cons_of_mem _ (ih h)

end Petstore

/-- C2 (amended): POST /pet-types with type "Australian Shepherd", when no
such type exists yet, returns 201 with family "Canidae", genus "Canis",
attributes exactly ["Loyal","outgoing","and","friendly"] (capital "L", as
canned in the deterministic map) and lifespan 15, whatever the live
taxonomy lookup would have answered. -/
theorem Petstore.create_pet_type_australian_shepherd (s : Petstore.CatalogState)
    (live : Petstore.NinjaOutcome)
    (h : Petstore.pet_type_exists_by_name s "Australian Shepherd" = false) :
    (Petstore.create_pet_type s "Australian Shepherd" live).1 =
      { status := 201,
        body := Petstore.RespBody.petType
          { id := toString s.next_id, type := "Australian Shepherd", family := "Canidae",
            genus := "Canis", attributes := ["Loyal", "outgoing", "and", "friendly"],
            lifespan := some 15, pets := [] } } := by
  have hf : Petstore.fetch_pet_type_data "Australian Shepherd" live =
      Petstore.NinjaOutcome.found
        { family := "Canidae", genus := "Canis",
          attributes := ["Loyal", "outgoing", "and", "friendly"], lifespan := some 15 } := rfl
  simp [Petstore.create_pet_type, h, hf]

/-- C2, counterexample to the claim as stated: on the empty catalog the
response object's attributes are ["Loyal","outgoing","and","friendly"],
which differs from the claimed ["loyal","outgoing","and","friendly"]. -/
theorem Petstore.create_pet_type_attributes_counterexample :
    (Petstore.create_pet_type Petstore.baseState "Australian Shepherd"
        Petstore.NinjaOutcome.notFound).1 =
      { status := 201,
        body := Petstore.RespBody.petType
          { id := "1", type := "Australian Shepherd", family := "Canidae", genus := "Canis",
            attributes := ["Loyal", "outgoing", "and", "friendly"], lifespan := some 15,
            pets := [] } }
    ∧ (["Loyal", "outgoing", "and", "friendly"] : List String) ≠
        ["loyal", "outgoing", "and", "friendly"] := by
  exact ⟨by decide, by decide⟩

/-- Witness for C2's amended theorem at the empty catalog state. -/
theorem Petstore.create_pet_type_australian_shepherd_witness :
    (Petstore.create_pet_type Petstore.baseState "Australian Shepherd"
        Petstore.NinjaOutcome.otherFailure).1 =
      { status := 201,
        body := Petstore.RespBody.petType
          { id := toString Petstore.baseState.next_id, type := "Australian Shepherd",
            family := "Canidae", genus := "Canis",
            attributes := ["Loyal", "outgoing", "and", "friendly"],
            lifespan := some 15, pets := [] } } :=
  Petstore.create_pet_type_australian_shepherd Petstore.baseState
    Petstore.NinjaOutcome.otherFailure (by decide)

/-- C8: deleting an existing pet-type answers 400 and leaves the state
untouched while its pet list is non-empty; with an empty pet list it
answers 204 and removes the type; and under the stored-pets correspondence
an empty pets map forces an empty pet list, so deleting every pet of the
type makes the deletion succeed. -/
theorem Petstore.delete_pet_type_guarded (s : Petstore.CatalogState) (tid : String)
    (pt : Petstore.PetType) (h : Petstore.alGet s.pet_types tid = some pt) :
    (pt.pets ≠ [] →
      Petstore.delete_pet_type s tid =
        ({ status := 400, body := Petstore.RespBody.error "Malformed data" }, s))
    ∧ (pt.pets = [] →
      Petstore.delete_pet_type s tid =
        ({ status := 204, body := Petstore.RespBody.empty }, Petstore.remove_pet_type s tid)
      ∧ Petstore.alGet (Petstore.remove_pet_type s tid).pet_types tid = none)
    ∧ (Petstore.names_match_pets (Petstore.petsOf s tid) pt.pets →
        Petstore.petsOf s tid = [] → pt.pets = []) := by
  refine ⟨?_, ?_, ?_⟩
  · intro hne
    simp [Petstore.delete_pet_type, h, hne]
  · intro he
    refine ⟨by simp [Petstore.delete_pet_type, h, he], ?_⟩
    simp [Petstore.remove_pet_type, h, Petstore.alGet_alErase_self]
  · intro hm hemp
    rw [List.eq_nil_iff_forall_not_mem]
    intro n hn
    have h1 := hm.1 n hn
    rw [hemp] at h1
    simp [Petstore.petKeys] at h1

/-- Witness for C8: the type holding pet "Rex" cannot be deleted (400, state
unchanged); the same type with no pets is deleted with 204. -/
theorem Petstore.delete_pet_type_guarded_witness :
    Petstore.delete_pet_type Petstore.dogRexState "1" =
      ({ status := 400, body := Petstore.RespBody.error "Malformed data" },
        Petstore.dogRexState)
    ∧ Petstore.delete_pet_type Petstore.dogState "1" =
      ({ status := 204, body := Petstore.RespBody.empty },
        Petstore.remove_pet_type Petstore.dogState "1") :=
  ⟨(Petstore.delete_pet_type_guarded Petstore.dogRexState "1"
      { id := "1", type := "Dog", family := "Canidae", genus := "Canis",
        attributes := ["loyal"], lifespan := some 12, pets := ["Rex"] }
      (by decide)).1 (by decide),
   ((Petstore.delete_pet_type_guarded Petstore.dogState "1" Petstore.dogType
      (by decide)).2.1 rfl).1⟩

/-- C9: a PUT whose body supplies neither a birthdate nor a picture-url
builds the updated pet with the previous birthdate, picture file name and
stored picture URL unchanged, performing no download and no file removal. -/
theorem Petstore.update_preserves_unsupplied_fields
    (download : String → Except Nat String) (data : Petstore.PetData) (ex : Petstore.Pet)
    (hbd : data.birthdate = none) (hpu : data.picture_url = none) :
    Petstore.build_or_update_pet download data (some ex) =
      Except.ok
        { pet := { name := data.name, birthdate := ex.birthdate, picture := ex.picture,
                   picture_url := ex.picture_url },
          downloads := [], removals := [] } := by
  obtain ⟨nm, bd, pu⟩ := data
  simp only at hbd hpu
  subst hbd
  subst hpu
  simp [Petstore.build_or_update_pet, Petstore.urlTruthy]

/-- Witness for C9: an update of a pet with a stored picture and URL, whose
body carries only the name, leaves all three optional fields as they were. -/
theorem Petstore.update_preserves_unsupplied_fields_witness :
    Petstore.build_or_update_pet (fun _ => Except.ok "other.jpg")
        { name := "Rex", birthdate := none, picture_url := none }
        (some { name := "Rex", birthdate := "01-02-2020", picture := "pet_7.jpg",
                picture_url := some "http://pics/rex.jpg" }) =
      Except.ok
        { pet := { name := "Rex", birthdate := "01-02-2020", picture := "pet_7.jpg",
                   picture_url := some "http://pics/rex.jpg" },
          downloads := [], removals := [] } :=
  Petstore.update_preserves_unsupplied_fields (fun _ => Except.ok "other.jpg")
    { name := "Rex", birthdate := none, picture_url := none }
    { name := "Rex", birthdate := "01-02-2020", picture := "pet_7.jpg",
      picture_url := some "http://pics/rex.jpg" } rfl rfl

/-- C3 (amended): on an update with a valid (or absent) birthdate, supplying
a picture-url different from the stored one triggers exactly one download
and exactly one old-file removal when the pet currently has a downloaded
picture file; re-submitting the stored picture-url triggers neither.  (When
the pet's picture is the unset marker "NA", a differing URL is merely
recorded: no download and no removal happen, as the counterexample shows.) -/
theorem Petstore.picture_update_download_removal
    (download : String → Except Nat String) (data : Petstore.PetData) (ex : Petstore.Pet)
    (u f : String)
    (hbd : data.birthdate = none ∨ data.birthdate = some "NA" ∨
      ∃ b, data.birthdate = some b ∧ (Petstore.parse_date b).isSome) :
    (data.picture_url = some (some u) → u ≠ "" → some u ≠ ex.picture_url →
      ex.picture ≠ "NA" → ex.picture ≠ "" → download u = Except.ok f →
      Petstore.build_or_update_pet download data (some ex) =
        Except.ok
          { pet := { name := data.name,
                     birthdate := if data.birthdate.isNone then ex.birthdate
                       else data.birthdate.getD "NA",
                     picture := f, picture_url := some u },
            downloads := [u], removals := [ex.picture] })
    ∧ (data.picture_url = some ex.picture_url →
      Petstore.build_or_update_pet download data (some ex) =
        Except.ok
          { pet := { name := data.name,
                     birthdate := if data.birthdate.isNone then ex.birthdate
                       else data.birthdate.getD "NA",
                     picture := ex.picture, picture_url := ex.picture_url },
            downloads := [], removals := [] }) := by
  have hchk : ¬ (data.birthdate.getD "NA" ≠ "NA" ∧
      (Petstore.parse_date (data.birthdate.getD "NA")).isNone) := by
    rcases hbd with h | h | ⟨b, hb, hp⟩
    · simp [h]
    · simp [h]
    · rcases Option.isSome_iff_exists.mp hp with ⟨d, hd⟩
      simp [hb, hd]
  constructor
  · intro hpu hu hne hpicNA hpicE hdl
    have hflip : ("NA" : String) ≠ ex.picture := fun hh => hpicNA hh.symm
    simp only [Petstore.build_or_update_pet]
    rw [if_neg hchk]
    simp only [hpu, Option.getD_some, Option.isNone_some, Bool.false_eq_true, if_false,
      reduceCtorEq]
    rw [if_neg hne]
    simp [Petstore.urlTruthy, hu, hflip, hdl, if_pos (And.intro hpicE hpicNA), Except.map]
  · intro hpu
    simp only [Petstore.build_or_update_pet]
    rw [if_neg hchk]
    simp [hpu, Petstore.urlTruthy, Except.map]

/-- C3, counterexample to the claim as stated: for an existing pet with no
stored picture (picture "NA", no stored URL), an update that supplies a
fresh picture-url performs zero downloads and zero removals; the claim
demands exactly one of each. -/
theorem Petstore.picture_update_counterexample :
    (some "http://pics/new.jpg" : Option String) ≠ Petstore.rexPet.picture_url
    ∧ Petstore.build_or_update_pet (fun _ => Except.ok "pet_42.jpg")
        { name := "Rex", birthdate := none,
          picture_url := some (some "http://pics/new.jpg") }
        (some Petstore.rexPet) =
      Except.ok
        { pet := { name := "Rex", birthdate := "NA", picture := "NA",
                   picture_url := some "http://pics/new.jpg" },
          downloads := [], removals := [] } :=
  ⟨by decide, by rfl⟩

/-- Witness for C3 at a pet that does have a stored picture file: a new URL
yields one download and one removal, the same URL yields none. -/
theorem Petstore.picture_update_download_removal_witness :
    Petstore.build_or_update_pet (fun _ => Except.ok "pet_9.png")
        { name := "Rex", birthdate := none, picture_url := some (some "http://pics/a.png") }
        (some { name := "Rex", birthdate := "NA", picture := "pet_1.jpg",
                picture_url := some "http://pics/b.jpg" }) =
      Except.ok
        { pet := { name := "Rex", birthdate := "NA", picture := "pet_9.png",
                   picture_url := some "http://pics/a.png" },
          downloads := ["http://pics/a.png"], removals := ["pet_1.jpg"] }
    ∧ Petstore.build_or_update_pet (fun _ => Except.ok "pet_9.png")
        { name := "Rex", birthdate := none, picture_url := some (some "http://pics/b.jpg") }
        (some { name := "Rex", birthdate := "NA", picture := "pet_1.jpg",
                picture_url := some "http://pics/b.jpg" }) =
      Except.ok
        { pet := { name := "Rex", birthdate := "NA", picture := "pet_1.jpg",
                   picture_url := some "http://pics/b.jpg" },
          downloads := [], removals := [] } :=
  ⟨(Petstore.picture_update_download_removal (fun _ => Except.ok "pet_9.png")
      { name := "Rex", birthdate := none, picture_url := some (some "http://pics/a.png") }
      { name := "Rex", birthdate := "NA", picture := "pet_1.jpg",
        picture_url := some "http://pics/b.jpg" }
      "http://pics/a.png" "pet_9.png" (Or.inl rfl)).1
      rfl (by decide) (by decide) (by decide) (by decide) rfl,
   (Petstore.picture_update_download_removal (fun _ => Except.ok "pet_9.png")
      { name := "Rex", birthdate := none, picture_url := some (some "http://pics/b.jpg") }
      { name := "Rex", birthdate := "NA", picture := "pet_1.jpg",
        picture_url := some "http://pics/b.jpg" }
      "x" "y" (Or.inl rfl)).2 rfl⟩

namespace Petstore

theorem names_match_pets_alSet (m : List (String × Pet)) (names : List String) (pet : Pet)
    (hinv : names_match_pets m names) :
    names_match_pets (alSet m (pyLower pet.name) pet)
      (if pet.name ∈ names then names else names ++ [pet.name]) := by
  obtain ⟨h1, h2⟩ := hinv
  have hsub : ∀ n, n ∈ names → n ∈ (if pet.name ∈ names then names else names ++ [pet.name]) := by
    intro n hn
    by_cases hmem : pet.name ∈ names
    · rw [if_pos hmem]
      exact hn
    · rw [if_neg hmem]
      exact List.mem_append_left _ hn
  have hself : pet.name ∈ (if pet.name ∈ names then names else names ++ [pet.name]) := by
    by_cases hmem : pet.name ∈ names
    · rw [if_pos hmem]
      exact hmem
    · rw [if_neg hmem]
      exact List.mem_append_right _ (List.mem_singleton.mpr rfl)
  constructor
  · intro n hn
    show pyLower n ∈ (alSet m (pyLower pet.name) pet).map Prod.fst
    rw [mem_keys_alSet]
    by_cases hmem : pet.name ∈ names
    · rw [if_pos hmem] at hn
      exact Or.inr (h1 n hn)
    · rw [if_neg hmem] at hn
      rcases List.mem_append.mp hn with hn | hn
      · exact Or.inr (h1 n hn)
      · exact Or.inl (by rw [List.mem_singleton.mp hn])
  · intro k hk
    have hk2 := (mem_keys_alSet m (pyLower pet.name) k pet).mp hk
    rcases hk2 with hk2 | hk2
    · exact ⟨pet.name, hself, hk2.symm⟩
    · rcases h2 k hk2 with ⟨n, hn, hlow⟩
      exact ⟨n, hsub n hn, hlow⟩

theorem names_match_pets_alErase (m : List (String × Pet)) (names : List String)
    (petName : String) (hinv : names_match_pets m names) :
    names_match_pets (alErase m (pyLower petName))
      (names.filter (fun n => pyLower n ≠ pyLower petName)) := by
  obtain ⟨h1, h2⟩ := hinv
  constructor
  · intro n hn
    rw [List.mem_filter, decide_eq_true_eq] at hn
    show pyLower n ∈ (alErase m (pyLower petName)).map Prod.fst
    rw [mem_keys_alErase]
    exact ⟨h1 n hn.1, hn.2⟩
  · intro k hk
    have hk2 := (mem_keys_alErase m (pyLower petName) k).mp hk
    rcases h2 k hk2.1 with ⟨n, hn, hlow⟩
    refine ⟨n, ?_, hlow⟩
    rw [List.mem_filter, decide_eq_true_eq]
    exact ⟨hn, by rw [hlow]; exact hk2.2⟩

end Petstore

/-- C4 (amended): the case-insensitive set correspondence between a
pet-type's name list and its stored pets map is an invariant: it holds for
a freshly registered type and is preserved by every pet addition and
deletion.  (The exact no-duplicate correspondence claimed by the spec fails:
see the counterexample, where re-adding a pet under a different letter case
duplicates its list entry.) -/
theorem Petstore.pets_list_correspondence_preserved (s : Petstore.CatalogState)
    (tid : String) (pet : Petstore.Pet) (petName : String) (pt : Petstore.PetType)
    (h : Petstore.alGet s.pet_types tid = some pt)
    (hinv : Petstore.names_match_pets (Petstore.petsOf s tid) (Petstore.namesOf s tid)) :
    Petstore.names_match_pets (Petstore.petsOf (Petstore.add_pet s tid pet) tid)
        (Petstore.namesOf (Petstore.add_pet s tid pet) tid)
    ∧ Petstore.names_match_pets
        (Petstore.petsOf (Petstore.delete_pet s tid petName).2 tid)
        (Petstore.namesOf (Petstore.delete_pet s tid petName).2 tid)
    ∧ ∀ pt2 : Petstore.PetType, pt2.pets = [] →
        Petstore.names_match_pets
          (Petstore.petsOf (Petstore.register_pet_type s pt2) pt2.id)
          (Petstore.namesOf (Petstore.register_pet_type s pt2) pt2.id) := by
  have hnames : Petstore.namesOf s tid = pt.pets := by
    simp [Petstore.namesOf, h]
  refine ⟨?_, ?_, ?_⟩
  · have hp : Petstore.petsOf (Petstore.add_pet s tid pet) tid =
        Petstore.alSet (Petstore.petsOf s tid) (Petstore.pyLower pet.name) pet := by
      simp [Petstore.add_pet, Petstore.petsOf, Petstore.alGet_alSet_self]
    have hn : Petstore.namesOf (Petstore.add_pet s tid pet) tid =
        (if pet.name ∈ pt.pets then pt.pets else pt.pets ++ [pet.name]) := by
      by_cases hmem : pet.name ∈ pt.pets
      · simp [Petstore.add_pet, Petstore.namesOf, h, hmem, Petstore.alGet_alSet_self]
      · simp [Petstore.add_pet, Petstore.namesOf, h, hmem, Petstore.alGet_alSet_self]
    rw [hp, hn]
    rw [hnames] at hinv
    exact Petstore.names_match_pets_alSet _ _ _ hinv
  · cases hm : Petstore.alGet s.pets_by_type tid with
    | none =>
      simp [Petstore.delete_pet, hm]
      exact hinv
    | some m =>
      cases hk : Petstore.alGet m (Petstore.pyLower petName) with
      | none =>
        simp [Petstore.delete_pet, hm, hk]
        exact hinv
      | some pet1 =>
        have hmm : Petstore.petsOf s tid = m := by
          simp [Petstore.petsOf, hm]
        have hp : Petstore.petsOf (Petstore.delete_pet s tid petName).2 tid =
            Petstore.alErase m (Petstore.pyLower petName) := by
          simp [Petstore.delete_pet, hm, hk, Petstore.petsOf, Petstore.alGet_alSet_self]
        have hn : Petstore.namesOf (Petstore.delete_pet s tid petName).2 tid =
            pt.pets.filter (fun n => Petstore.pyLower n ≠ Petstore.pyLower petName) := by
          simp [Petstore.delete_pet, hm, hk, Petstore.namesOf, h, Petstore.alGet_alSet_self]
        rw [hp, hn]
        rw [hnames, hmm] at hinv
        exact Petstore.names_match_pets_alErase _ _ _ hinv
  · intro pt2 hpt2
    have hp : Petstore.petsOf (Petstore.register_pet_type s pt2) pt2.id = [] := by
      simp [Petstore.register_pet_type, Petstore.petsOf, Petstore.alGet_alSet_self]
    have hn : Petstore.namesOf (Petstore.register_pet_type s pt2) pt2.id = pt2.pets := by
      simp [Petstore.register_pet_type, Petstore.namesOf, Petstore.alGet_alSet_self]
    rw [hp, hn, hpt2]
    exact ⟨by simp, by simp [Petstore.petKeys]⟩

/-- C4, counterexample to the claim as stated: after adding pet "Rex" and
then adding "REX" to the same type (the create-pet route performs no
duplicate check, and an update may change the name's case), the type's name
list is ["Rex","REX"] while exactly one pet is stored, so the list is not a
duplicate-free case-insensitive enumeration of the stored pets. -/
theorem Petstore.pets_list_exact_counterexample :
    Petstore.namesOf (Petstore.add_pet Petstore.dogRexState "1"
        { name := "REX", birthdate := "NA", picture := "NA", picture_url := none }) "1" =
      ["Rex", "REX"]
    ∧ Petstore.petKeys (Petstore.petsOf (Petstore.add_pet Petstore.dogRexState "1"
        { name := "REX", birthdate := "NA", picture := "NA", picture_url := none }) "1") =
      ["rex"]
    ∧ ¬ Petstore.exact_names_match
        (Petstore.petsOf (Petstore.add_pet Petstore.dogRexState "1"
            { name := "REX", birthdate := "NA", picture := "NA", picture_url := none }) "1")
        (Petstore.namesOf (Petstore.add_pet Petstore.dogRexState "1"
            { name := "REX", birthdate := "NA", picture := "NA", picture_url := none }) "1") := by
  exact ⟨by decide, by decide, by decide⟩

/-- Witness for C4's amended theorem: the correspondence holds after adding
a pet to the sample one-pet catalog. -/
theorem Petstore.pets_list_correspondence_preserved_witness :
    Petstore.names_match_pets
      (Petstore.petsOf (Petstore.add_pet Petstore.dogRexState "1"
          { name := "Fido", birthdate := "NA", picture := "NA", picture_url := none }) "1")
      (Petstore.namesOf (Petstore.add_pet Petstore.dogRexState "1"
          { name := "Fido", birthdate := "NA", picture := "NA", picture_url := none }) "1") :=
  (Petstore.pets_list_correspondence_preserved Petstore.dogRexState "1"
    { name := "Fido", birthdate := "NA", picture := "NA", picture_url := none } "x"
    { id := "1", type := "Dog", family := "Canidae", genus := "Canis",
      attributes := ["loyal"], lifespan := some 12, pets := ["Rex"] }
    (by decide) (by decide)).1

/-- C5 (amended): with a store pinned, a purchase naming a non-empty pet
name that matches no pet (case-insensitively) of the requested type at that
store fails with "No pet of this type is available", whatever the other
store holds; and any purchase supplying a pet name (even the empty string)
without a store is rejected as malformed with 400.  (An empty-string pet
name together with a store is treated as if no name had been supplied: the
code then selects a pet at random, as the counterexample shows.) -/
theorem PetOrder.named_purchase_requires_store (env : PetOrder.OrderEnv)
    (ledger : List PetOrder.Transaction) :
    (∀ (req : PetOrder.PurchaseReq) (k : Int) (n : String),
      req.store = some k → (k = 1 ∨ k = 2) → req.pet_name = some n → n ≠ "" →
      (∀ tid, PetOrder.strOptTruthy
          (PetOrder.get_pet_type_id (PetOrder.catalogOf env k.toNat) req.pet_type) = some tid →
        ∀ p ∈ PetOrder.get_pets (PetOrder.catalogOf env k.toNat) tid,
          Petstore.pyLower p.name ≠ Petstore.pyLower n) →
      PetOrder.create_purchase env req ledger =
        (PetOrder.PurchaseResult.failure 400 "No pet of this type is available", ledger))
    ∧ (∀ req : PetOrder.PurchaseReq, req.store = none → req.pet_name ≠ none →
      PetOrder.create_purchase env req ledger =
        (PetOrder.PurchaseResult.failure 400 "Malformed data", ledger)) := by
  constructor
  · intro req k n hstore hk hname hne hmiss
    have htry : PetOrder.try_store env req k.toNat = none := by
      rw [PetOrder.try_store]
      cases hres : PetOrder.strOptTruthy
          (PetOrder.get_pet_type_id (PetOrder.catalogOf env k.toNat) req.pet_type) with
      | none => simp
      | some tid =>
        simp only
        by_cases hemp : (PetOrder.get_pets (PetOrder.catalogOf env k.toNat) tid).isEmpty
        · simp [hemp]
        · have hfind : List.find? (fun p => Petstore.pyLower p.name == Petstore.pyLower n)
              (PetOrder.get_pets (PetOrder.catalogOf env k.toNat) tid) = none := by
            rw [List.find?_eq_none]
            intro p hp
            simp only [beq_iff_eq]
            exact hmiss tid hres p hp
          simp [hemp, hname, hne, hfind]
    rcases hk with hk | hk <;> subst hk
    · have htry1 : PetOrder.try_store env req 1 = none := htry
      have hchosen : PetOrder.chosen_of env req = none := by
        simp [PetOrder.chosen_of, PetOrder.stores_to_check, hstore,
          PetOrder.first_choice, htry1]
      have hv : PetOrder.store_valid req.store = true := by
        rw [hstore]
        rfl
      simp [PetOrder.create_purchase, hv, hchosen, hstore]
      rfl
    · have htry2 : PetOrder.try_store env req 2 = none := htry
      have hchosen : PetOrder.chosen_of env req = none := by
        simp [PetOrder.chosen_of, PetOrder.stores_to_check, hstore,
          PetOrder.first_choice, htry2]
      have hv : PetOrder.store_valid req.store = true := by
        rw [hstore]
        rfl
      simp [PetOrder.create_purchase, hv, hchosen, hstore]
      rfl
  · intro req hstore hname
    simp [PetOrder.create_purchase, PetOrder.store_valid, hstore, hname]

/-- C5, counterexample to the claim as stated: the request pins store 1 and
supplies the pet name "", no pet named "" exists at store 1, yet the
purchase succeeds (the code treats a falsy pet name as absent and picks a
pet at random). -/
theorem PetOrder.empty_pet_name_counterexample :
    (∀ p ∈ PetOrder.get_pets Petstore.dogRexState "1",
      Petstore.pyLower p.name ≠ Petstore.pyLower "")
    ∧ PetOrder.create_purchase
        (PetOrder.mk_env Petstore.dogRexState Petstore.baseState 0 "uuid-9")
        { purchaser := "alice", pet_type := "Dog", store := some 1, pet_name := some "" } [] =
      (PetOrder.PurchaseResult.success
          { purchaser := "alice", pet_type := "Dog", store := 1, pet_name := "Rex",
            purchase_id := "uuid-9" },
        [{ purchaser := "alice", pet_type := "Dog", store := 1, pet_name := "Rex",
            purchase_id := "uuid-9" }]) := by
  exact ⟨by decide, by rfl⟩

/-- Witness for C5: a request naming "Bingo" at store 1 (which only has
"Rex") fails, and a request naming a pet with no store is malformed. -/
theorem PetOrder.named_purchase_requires_store_witness :
    PetOrder.create_purchase
        (PetOrder.mk_env Petstore.dogRexState Petstore.baseState 0 "uuid-9")
        { purchaser := "alice", pet_type := "Dog", store := some 1,
          pet_name := some "Bingo" } [] =
      (PetOrder.PurchaseResult.failure 400 "No pet of this type is available", [])
    ∧ PetOrder.create_purchase
        (PetOrder.mk_env Petstore.dogRexState Petstore.baseState 0 "uuid-9")
        { purchaser := "alice", pet_type := "Dog", store := none,
          pet_name := some "Rex" } [] =
      (PetOrder.PurchaseResult.failure 400 "Malformed data", []) :=
  ⟨(PetOrder.named_purchase_requires_store
      (PetOrder.mk_env Petstore.dogRexState Petstore.baseState 0 "uuid-9") []).1
      { purchaser := "alice", pet_type := "Dog", store := some 1, pet_name := some "Bingo" }
      1 "Bingo" rfl (Or.inl rfl) rfl (by decide) (by decide),
   (PetOrder.named_purchase_requires_store
      (PetOrder.mk_env Petstore.dogRexState Petstore.baseState 0 "uuid-9") []).2
      { purchaser := "alice", pet_type := "Dog", store := none, pet_name := some "Rex" }
      rfl (by simp)⟩

/-- C1: once a pet has been selected, the purchase succeeds exactly when the
remote deletion answers 204: any other outcome yields the uniform failure
"No pet of this type is available" with the ledger unchanged and without
consulting the other store, and on 204 the new Transaction is appended to
the ledger and returned. -/
theorem PetOrder.create_purchase_delete_outcome (env : PetOrder.OrderEnv)
    (req : PetOrder.PurchaseReq) (ledger : List PetOrder.Transaction) (c : PetOrder.Chosen)
    (hv : PetOrder.store_valid req.store = true)
    (hv2 : ¬ (req.store = none ∧ req.pet_name ≠ none))
    (hc : PetOrder.chosen_of env req = some c) :
    (env.delete_status c.store_id c.type_id c.name ≠ 204 →
      PetOrder.create_purchase env req ledger =
        (PetOrder.PurchaseResult.failure 400 "No pet of this type is available", ledger))
    ∧ (env.delete_status c.store_id c.type_id c.name = 204 →
      PetOrder.create_purchase env req ledger =
        (PetOrder.PurchaseResult.success (PetOrder.mk_transaction req c env.fresh_id),
          ledger ++ [PetOrder.mk_transaction req c env.fresh_id]))
    ∧ (∀ (t : PetOrder.Transaction) (l2 : List PetOrder.Transaction),
        PetOrder.create_purchase env req ledger = (PetOrder.PurchaseResult.success t, l2) ↔
          (env.delete_status c.store_id c.type_id c.name = 204 ∧
            t = PetOrder.mk_transaction req c env.fresh_id ∧ l2 = ledger ++ [t]))
    ∧ (req.store = none → PetOrder.try_store env req 1 = some c →
        ∀ s2 : Petstore.CatalogState,
          PetOrder.create_purchase { env with store2 := s2 } req ledger =
            PetOrder.create_purchase env req ledger) := by
  refine ⟨?_, ?_, ?_, ?_⟩
  · intro hne
    simp [PetOrder.create_purchase, hv, hv2, hc, hne]
  · intro he
    simp [PetOrder.create_purchase, hv, hv2, hc, he]
  · intro t l2
    by_cases hd : env.delete_status c.store_id c.type_id c.name = 204
    · simp [PetOrder.create_purchase, hv, hv2, hc, hd, Prod.ext_iff]
      aesop
    · simp [PetOrder.create_purchase, hv, hv2, hc, hd]
  · intro hns h1 s2
    have e1 : PetOrder.try_store { env with store2 := s2 } req 1 =
        PetOrder.try_store env req 1 := rfl
    have hc2 : PetOrder.chosen_of { env with store2 := s2 } req = some c := by
      simp [PetOrder.chosen_of, PetOrder.stores_to_check, hns, PetOrder.first_choice, e1, h1]
    simp [PetOrder.create_purchase, hv, hv2, hc, hc2]

/-- Witness for C1: with the remote DELETE answering 500, the selected
purchase of "Rex" fails with the uniform message and appends nothing. -/
theorem PetOrder.create_purchase_delete_outcome_witness :
    PetOrder.create_purchase
        { store1 := Petstore.dogRexState, store2 := Petstore.baseState, seed := 0,
          fresh_id := "uuid-1", delete_status := fun _ _ _ => 500 }
        { purchaser := "alice", pet_type := "Dog", store := some 1, pet_name := none } [] =
      (PetOrder.PurchaseResult.failure 400 "No pet of this type is available", []) :=
  (PetOrder.create_purchase_delete_outcome
    { store1 := Petstore.dogRexState, store2 := Petstore.baseState, seed := 0,
      fresh_id := "uuid-1", delete_status := fun _ _ _ => 500 }
    { purchaser := "alice", pet_type := "Dog", store := some 1, pet_name := none }
    [] { store_id := 1, type_id := "1", name := "Rex" }
    rfl (by simp) (by decide)).1 (by decide)

namespace PetOrder

open Petstore

theorem pick_some (l : List PetJson) (h : l ≠ []) (seed : Nat) :
    ∃ p, l[seed % l.length]? = some p ∧ p ∈ l := by
  have hlen : 0 < l.length := List.length_pos.mpr h
  have hlt : seed % l.length < l.length := Nat.mod_lt _ hlen
  exact ⟨l[seed % l.length], List.getElem?_eq_getElem hlt, List.getElem_mem hlt⟩

/-- A pet that the store lists for a type can really be deleted there: the
remote DELETE of the petstore service answers 204 for it. -/
theorem petstore_delete_of_listed (s : CatalogState) (tid : String) (p : PetJson)
    (wf : store_wf s) (hp : p ∈ get_pets s tid) :
    petstore_delete_status s tid p.name = 204 := by
  by_cases hsome : (alGet s.pet_types tid).isSome
  case neg =>
    rw [get_pets, if_neg hsome] at hp
    simp at hp
  rw [get_pets, if_pos hsome] at hp
  obtain ⟨kv, hkv, hpe⟩ := List.mem_map.mp hp
  cases hm : alGet s.pets_by_type tid with
  | none =>
    rw [Petstore.petsOf, hm] at hkv
    simp at hkv
  | some m =>
    rw [Petstore.petsOf, hm] at hkv
    simp only [Option.getD_some] at hkv
    have hwf : kv.1 = pyLower kv.2.name := wf (tid, m) (alGet_mem _ _ _ hm) kv hkv
    have hpn : p.name = kv.2.name := by
      rw [← hpe]
      rfl
    have hkey : (Petstore.alGet m (pyLower p.name)).isSome := by
      apply alGet_isSome_of_mem_keys
      rw [hpn, ← hwf]
      exact List.mem_map.mpr ⟨kv, hkv, rfl⟩
    obtain ⟨pet1, hpet1⟩ := Option.isSome_iff_exists.mp hkey
    cases hpt : alGet s.pet_types tid with
    | none =>
      rw [hpt] at hsome
      simp at hsome
    | some pt =>
      simp [petstore_delete_status, hpt, Petstore.delete_pet, hm, hpet1]

end PetOrder

/-- C6: with no store specified and no pet named, when store 1 yields no
selection for the requested species (its type listing has no
case-insensitive match, or the matched type lists no pets) while store 2
has the type with at least one pet, the purchase succeeds against store 2
(its remote DELETE, served by the petstore code, answers 204) and the
transaction is appended; moreover stores are consulted in the fixed order
1 then 2, the first store yielding a selection winning. -/
theorem PetOrder.purchase_store2_fallback (s1 s2 : Petstore.CatalogState)
    (seed : Nat) (pid : String) (req : PetOrder.PurchaseReq)
    (ledger : List PetOrder.Transaction) (tid : String)
    (h1 : req.store = none) (h2 : req.pet_name = none)
    (h3 : PetOrder.strOptTruthy (PetOrder.get_pet_type_id s1 req.pet_type) = none
      ∨ ∃ t1, PetOrder.strOptTruthy (PetOrder.get_pet_type_id s1 req.pet_type) = some t1
          ∧ PetOrder.get_pets s1 t1 = [])
    (h4 : PetOrder.strOptTruthy (PetOrder.get_pet_type_id s2 req.pet_type) = some tid)
    (h5 : PetOrder.get_pets s2 tid ≠ [])
    (hwf : PetOrder.store_wf s2) :
    (∃ t : PetOrder.Transaction,
      PetOrder.create_purchase (PetOrder.mk_env s1 s2 seed pid) req ledger =
        (PetOrder.PurchaseResult.success t, ledger ++ [t]) ∧ t.store = 2)
    ∧ ∀ (env : PetOrder.OrderEnv) (c : PetOrder.Chosen),
        PetOrder.try_store env req 1 = some c → PetOrder.chosen_of env req = some c := by
  constructor
  · set env := PetOrder.mk_env s1 s2 seed pid with henv
    have hcat1 : PetOrder.catalogOf env 1 = s1 := rfl
    have hcat2 : PetOrder.catalogOf env 2 = s2 := rfl
    have htry1 : PetOrder.try_store env req 1 = none := by
      rcases h3 with h3 | ⟨t1, ht1, hemp⟩
      · rw [PetOrder.try_store, hcat1, h3]
      · rw [PetOrder.try_store, hcat1, ht1]
        simp [hemp]
    obtain ⟨p, hpick, hmem⟩ := PetOrder.pick_some (PetOrder.get_pets s2 tid) h5 seed
    have hseed : env.seed = seed := rfl
    have htry2 : PetOrder.try_store env req 2 =
        some { store_id := 2, type_id := tid, name := p.name } := by
      rw [PetOrder.try_store, hcat2, h4]
      have hne : (PetOrder.get_pets s2 tid).isEmpty = false := by
        simp [List.isEmpty_iff, h5]
      simp [hne, h2, hseed, hpick]
    have hchosen : PetOrder.chosen_of env req =
        some { store_id := 2, type_id := tid, name := p.name } := by
      simp [PetOrder.chosen_of, PetOrder.stores_to_check, h1, PetOrder.first_choice,
        htry1, htry2]
    have hdel : env.delete_status 2 tid p.name = 204 :=
      PetOrder.petstore_delete_of_listed s2 tid p hwf hmem
    refine ⟨PetOrder.mk_transaction req
      { store_id := 2, type_id := tid, name := p.name } pid, ?_, rfl⟩
    have hv : PetOrder.store_valid req.store = true := by
      rw [h1]
      rfl
    simp [PetOrder.create_purchase, hv, h1, h2, hchosen, hdel]
    rfl
  · intro env c hc
    simp [PetOrder.chosen_of, PetOrder.stores_to_check, h1, PetOrder.first_choice, hc]

/-- Witness for C6: store 1 is empty, store 2 holds a Dog named Rex; the
storeless purchase succeeds against store 2. -/
theorem PetOrder.purchase_store2_fallback_witness :
    ∃ t : PetOrder.Transaction,
      PetOrder.create_purchase
          (PetOrder.mk_env Petstore.baseState Petstore.dogRexState 0 "uuid-2")
          { purchaser := "bob", pet_type := "Dog", store := none, pet_name := none } [] =
        (PetOrder.PurchaseResult.success t, [] ++ [t]) ∧ t.store = 2 :=
  (PetOrder.purchase_store2_fallback Petstore.baseState Petstore.dogRexState 0 "uuid-2"
    { purchaser := "bob", pet_type := "Dog", store := none, pet_name := none }
    [] "1" rfl rfl (Or.inl (by decide)) (by decide) (by decide) (by decide)).1
